import Mathlib

/-!
Verification of the daily-video pipeline (`video_generator.py`) and the
uploader (`youtube_uploader.py`).

The Python sources are shallowly embedded: pure computations become Lean
functions, outcomes of external effects (HTTP fetch, subprocess exit status,
environment variables, files on disk) become explicit parameters, and Python
exceptions become `Except` values.  Strings are Lean `String`s; where the
Python code iterates over characters or file lines, the embedding works on
`String.data` (the underlying character list).
-/

namespace AutoVideo

/-- `Content` mirrors the dict returned by `AutoVideoCreator.get_daily_content`:
keys `type`, `text`, `hashtags`. -/
structure Content where
  ctype : String
  text : String
  hashtags : String
deriving Repr, DecidableEq

/-- Outcome of the `requests.get("https://api.quotable.io/random").json()`
call together with the `content`/`author` key accesses: either both fields
were obtained, or some exception (network error, timeout, JSON parse error,
missing key) was raised inside the `try` block. -/
inductive FetchOutcome where
  | ok (content author : String)
  | failure
deriving Repr, DecidableEq

/-- The fixed fallback quote list of `get_daily_content`. -/
def fallback_quotes : List String :=
  [ "The only way to do great work is to love what you do. - Steve Jobs",
    "Your time is limited, so don\u0027t waste it living someone else\u0027s life. - Steve Jobs",
    "The future belongs to those who believe in the beauty of their dreams. - Eleanor Roosevelt" ]

/-- `AutoVideoCreator.get_daily_content`.  The bare `except:` collapses every
failure into the fallback branch; `i` is the index drawn by `random.choice`
over the three fallback quotes. -/
def get_daily_content (o : FetchOutcome) (i : Fin 3) : Content :=
  match o with
  | .ok c a =>
      { ctype := "quote"
      , text := c ++ "\n\n- " ++ a
      , hashtags := "#motivation #inspiration #success" }
  | .failure =>
      { ctype := "quote"
      , text := fallback_quotes.getD i.1 ""
      , hashtags := "#daily #viral #shorts" }

/-! ## Frame renderer: `create_motivational_short`

`textwrap.fill(content['text'], width=30)` is embedded as `textwrap_fill`:
split the text into whitespace-separated words, then pack them greedily into
lines, starting a new line when appending `" " ++ w` would push the current
line past `width` characters.  (CPython textwrap with its default options
additionally breaks words longer than the width and may break at hyphens;
neither affects texts whose words fit the column, the case claim C4 is
about.) -/

/-- Whitespace word-splitting of Python `str.split()` over a char list:
maximal runs of non-whitespace characters, in order.  `acc` holds the
current word reversed. -/
def wordsAux : List Char → List Char → List (List Char)
  | [], acc => if acc.isEmpty then [] else [acc.reverse]
  | c :: cs, acc =>
    if c.isWhitespace then
      if acc.isEmpty then wordsAux cs [] else acc.reverse :: wordsAux cs []
    else wordsAux cs (c :: acc)

/-- The whitespace-separated words of a string (Python `str.split()`). -/
def pyWords (s : String) : List String :=
  (wordsAux s.data []).map fun w => ⟨w⟩

/-- Greedy line packing of `textwrap`: `cur` is the line under construction. -/
def fillLoop (width : Nat) : List String → String → List String
  | [], cur => [cur]
  | w :: ws, cur =>
    if cur.length + 1 + w.length ≤ width then fillLoop width ws (cur ++ " " ++ w)
    else cur :: fillLoop width ws w

/-- The wrapped lines (`textwrap.wrap`). -/
def textwrap_wrap (width : Nat) (s : String) : List String :=
  match pyWords s with
  | [] => []
  | w :: ws => fillLoop width ws w

/-- `textwrap.fill(s, width)`: the wrapped lines joined with newlines. -/
def textwrap_fill (width : Nat) (s : String) : String :=
  String.intercalate "\n" (textwrap_wrap width s)

/-- The position computation of `create_motivational_short` from the
`draw.textbbox((0, 0), wrapped_text, font=font)` result `(x0, y0, x1, y1)`:
`text_width = bbox[2] - bbox[0]`, `text_height = bbox[3] - bbox[0]`,
`position = ((1080 - text_width) // 2, (1920 - text_height) // 2)`
(Python `//` is floor division, hence `Int.fdiv`). -/
def textPosition (x0 y0 x1 y1 : Int) : Int × Int :=
  let text_width := x1 - x0
  let text_height := y1 - x0
  ((1080 - text_width).fdiv 2, (1920 - text_height).fdiv 2)

/-- Modelled from the spec: §4.2 says the renderer "computes the wrapped
block's bounding box, and centers it on a fixed-size dark background canvas",
i.e. the block's height is `y1 - y0` and the block is placed at
`((1080 - width) // 2, (1920 - height) // 2)`.  This is the centred placement
claim C5 describes, for comparison with `textPosition` above. -/
def textPositionCentered (x0 y0 x1 y1 : Int) : Int × Int :=
  ((1080 - (x1 - x0)).fdiv 2, (1920 - (y1 - y0)).fdiv 2)

/-- The rendered frame of `create_motivational_short`: an 1080 by 1920 canvas
(`Image.new('RGB', (1080, 1920), ...)`) carrying the wrapped text drawn at
`position`. -/
structure Frame where
  width : Nat
  height : Nat
  text : String
  position : Int × Int
deriving Repr, DecidableEq

/-- `AutoVideoCreator.create_motivational_short`, up to the point where the
image is saved.  The text bounding box `(x0, y0, x1, y1)` is reported by the
drawing library and is taken as a parameter. -/
def create_motivational_short (c : Content) (x0 y0 x1 y1 : Int) : Frame :=
  { width := 1080
  , height := 1920
  , text := textwrap_fill 30 c.text
  , position := textPosition x0 y0 x1 y1 }

/-! ## Video encoder: `create_video_from_image` -/

/-- The fade filter string of the ffmpeg command:
`f'fade=t=in:st=0:d=1,fade=t=out:st={duration-1}:d=1'`.  `duration` is a
Python int, hence `Int`. -/
def fadeFilter (duration : Int) : String :=
  "fade=t=in:st=0:d=1,fade=t=out:st=" ++ toString (duration - 1) ++ ":d=1"

/-- The argument list `cmd` built by `create_video_from_image`. -/
def ffmpegCmd (image_path output_path : String) (duration : Int) : List String :=
  [ "ffmpeg",
    "-loop", "1",
    "-i", image_path,
    "-c:v", "libx264",
    "-t", toString duration,
    "-pix_fmt", "yuv420p",
    "-vf", fadeFilter duration,
    output_path,
    "-y" ]

/-- File-presence effect of `create_fallback_video`: it runs the fallback
ffmpeg invocation with `subprocess.run(cmd, capture_output=True)` and never
inspects the exit status; a file appears at `output_path` exactly when that
invocation succeeds (`fallbackExitOk`).  (Encoder effect modelled from the
spec: §4.3, the fallback "is not checked for success; if it also fails, the
run proceeds as though a video exists".) -/
def create_fallback_video (output_path : String) (fallbackExitOk : Bool) : Bool :=
  fallbackExitOk

/-- File-presence effect of `create_video_from_image` on a fresh run: the
primary ffmpeg invocation is run with `check=True`; on success a file exists
at `output_path`, and on `CalledProcessError` the except branch invokes
`create_fallback_video` (whose own failure is not checked).  The returned
Bool is whether a file is present at `output_path` when the function
returns; the function itself always returns normally. -/
def create_video_from_image (image_path output_path : String) (duration : Int)
    (primaryExitOk fallbackExitOk : Bool) : Bool :=
  if primaryExitOk then true
  else create_fallback_video output_path fallbackExitOk

/-! ## Metadata: `generate_title`, `generate_description`, `run_daily` -/

/-- The four title templates of `generate_title`; `dateT` is
`datetime.now().strftime('%m/%d/%Y')`. -/
def titleTemplates (dateT : String) : List String :=
  [ "This Will Change Your Perspective",
    "Daily Wisdom " ++ dateT,
    "The Truth Nobody Tells You",
    "One Minute That Could Change Everything" ]

/-- `AutoVideoCreator.generate_title`: `random.choice(templates)`, the drawn
index being `i`.  The `content` argument is accepted but never read. -/
def generate_title (c : Content) (dateT : String) (i : Fin 4) : String :=
  (titleTemplates dateT).getD i.1 ""

/-- The literal f-string text of `generate_description` between `{content['text']}`
and `{date_str}` (the bytes are copied verbatim from the source file,
including the U+F8FF private-use character). -/
def descSeg1 : String := "\n\n\uF8FFüìÖ Daily upload for "

/-- The literal f-string text between `{date_str}` and `{hashtags}`. -/
def descSeg2 : String := "\n\uF8FFüî• New video every day at 2 PM UTC\n\n"

/-- The literal f-string text after `{hashtags}` (note the trailing space
after `#mindset` and the final newline, both present in the source). -/
def descSeg3 : String :=
  "\n\n#shorts #viral #trending #motivation #inspiration #success #mindset \n#daily #youtube #subscribe #like #comment\n\n‚ñ∂Ô∏è Watch our previous videos\n\uF8FFüîî Turn on notifications\n\uF8FFüëç Like if you enjoyed\n\nThis content is automatically generated.\n"

/-- `AutoVideoCreator.generate_description`: the f-string, split at its three
interpolation points.  `dateD` is `datetime.now().strftime("%B %d, %Y")`;
`content.get('hashtags', ...)` always finds the key on contents produced by
`get_daily_content`. -/
def generate_description (c : Content) (dateD : String) : String :=
  c.text ++ descSeg1 ++ dateD ++ descSeg2 ++ c.hashtags ++ descSeg3

/-- `descSeg1` after its two leading newlines: the text of the date line
before `{date_str}`. -/
def descLineDate : String := "\uF8FFüìÖ Daily upload for "

/-- The single full line inside `descSeg2`. -/
def descLineUTC : String := "\uF8FFüî• New video every day at 2 PM UTC"

/-- `descSeg3` after its two leading newlines (the fixed trailing block of
the description). -/
def descSeg3Tail : String :=
  "#shorts #viral #trending #motivation #inspiration #success #mindset \n#daily #youtube #subscribe #like #comment\n\n‚ñ∂Ô∏è Watch our previous videos\n\uF8FFüîî Turn on notifications\n\uF8FFüëç Like if you enjoyed\n\nThis content is automatically generated.\n"

/-- The metadata dict built by `run_daily`. -/
structure VideoMetadata where
  video_file : String
  title : String
  description : String
  tags : List String
deriving Repr, DecidableEq

/-- The fixed tag list of `run_daily`. -/
def run_daily_tags : List String := ["shorts", "viral", "daily", "motivation"]

/-- The metadata produced by `run_daily`: every template function returns
`"output_video.mp4"`; `i` is the index drawn by `random.choice` inside
`generate_title`; `dateT`/`dateD` are the two `strftime` renderings of the
current date. -/
def run_daily_metadata (c : Content) (i : Fin 4) (dateT dateD : String) : VideoMetadata :=
  { video_file := "output_video.mp4"
  , title := generate_title c dateT i
  , description := generate_description c dateD
  , tags := run_daily_tags }

/-- The four `f.write` calls of `run_daily`: the content of `video_info.txt`. -/
def writeSidecar (m : VideoMetadata) : String :=
  "TITLE: " ++ m.title ++ "\n" ++
  "DESCRIPTION: " ++ m.description ++ "\n" ++
  "TAGS: " ++ String.intercalate "," m.tags ++ "\n" ++
  "FILE: " ++ m.video_file ++ "\n"

/-! ## Sidecar parsing: `get_video_info` -/

/-- Python exceptions relevant to the uploader: the `ValueError` raised by
`get_credentials` (and by tuple unpacking in `get_video_info`), and an
exception escaping `creds.refresh(Request())`. -/
inductive PyError where
  | valueError
  | refreshError
deriving Repr, DecidableEq

/-- The `video_info` dict: insertion-ordered key/value pairs with
last-write-wins semantics. -/
abbrev Dict := List (String × String)

/-- `video_info[key] = value`: overwrite in place or append. -/
def dictInsert : Dict → String → String → Dict
  | [], k, v => [(k, v)]
  | (k1, v1) :: rest, k, v =>
    if k1 = k then (k1, v) :: rest else (k1, v1) :: dictInsert rest k v

/-- Dict lookup. -/
def dictGet? (d : Dict) (k : String) : Option String :=
  (d.find? fun p => p.1 == k).map fun p => p.2

/-- `video_info.get(key, default)`. -/
def dictGetD (d : Dict) (k : String) (dflt : String) : String :=
  (dictGet? d k).getD dflt

/-- Split a character list at every occurrence of a separator character
(Python `str.split(sep)` for a one-character separator: always returns one
more piece than there are separators, so the empty string yields `[[]]`). -/
def splitChar (sep : Char) : List Char → List (List Char)
  | [] => [[]]
  | c :: cs =>
    if c = sep then [] :: splitChar sep cs
    else
      match splitChar sep cs with
      | [] => [[c]]
      | l :: ls => (c :: l) :: ls

/-- The lines of a file, the way Python `for line in f` yields them (split at
every newline character; terminators are immaterial here because `": "`
cannot span a line end and `strip` removes trailing whitespace). -/
def pyLines (l : List Char) : List (List Char) :=
  splitChar '\n' l

/-- Python `s.split(",")`. -/
def pySplitComma (s : String) : List String :=
  (splitChar ',' s.data).map fun l => ⟨l⟩

/-- The first line of a string (what survives of a multi-line value when the
sidecar is parsed back line by line). -/
def firstLine (s : String) : String :=
  ⟨(pyLines s.data).headD []⟩

/-- Python `str.strip()`: drop whitespace from both ends. -/
def pyStrip (l : List Char) : List Char :=
  ((l.dropWhile Char.isWhitespace).reverse.dropWhile Char.isWhitespace).reverse

/-- `": " in line`. -/
def hasColonSpace : List Char → Bool
  | [] => false
  | [_] => false
  | c1 :: c2 :: rest => (c1 == ':' && c2 == ' ') || hasColonSpace (c2 :: rest)

/-- `line.split(": ", 1)`: split at the first occurrence of `": "`; `none`
when the separator does not occur (in which case the Python tuple unpacking
raises `ValueError`). -/
def splitFirstColonSpace : List Char → Option (List Char × List Char)
  | [] => none
  | [_] => none
  | c1 :: c2 :: rest =>
    if c1 == ':' && c2 == ' ' then some ([], rest)
    else (splitFirstColonSpace (c2 :: rest)).map fun p => (c1 :: p.1, p.2)

/-- One iteration of the `for line in f` loop of `get_video_info`. -/
def parseLine (d : Dict) (line : List Char) : Except PyError Dict :=
  if hasColonSpace line then
    match splitFirstColonSpace (pyStrip line) with
    | some (k, v) => .ok (dictInsert d ⟨k⟩ ⟨v⟩)
    | none => .error .valueError
  else .ok d

/-- The whole `for line in f` loop. -/
def parseLinesList : Dict → List (List Char) → Except PyError Dict
  | d, [] => .ok d
  | d, line :: rest =>
    match parseLine d line with
    | .ok d2 => parseLinesList d2 rest
    | .error e => .error e

/-- `get_video_info`: `file` is the content of `video_info.txt`, or `none`
when the file is absent (`FileNotFoundError` is caught and `None` returned).
Any `ValueError` from the tuple unpacking is not caught and propagates. -/
def get_video_info (file : Option String) : Except PyError (Option Dict) :=
  match file with
  | none => .ok none
  | some content =>
    match parseLinesList [] (pyLines content.data) with
    | .ok d => .ok (some d)
    | .error e => .error e

/-! ## Uploader: `get_credentials`, `upload_video`, `__main__` -/

/-- Python truthiness of `os.environ.get(...)`: `not x` is true for a missing
variable (`None`) and for the empty string. -/
def envMissing : Option String → Bool
  | none => true
  | some s => s.isEmpty

/-- The credential object stored in `token.pickle`. -/
structure StoredCreds where
  valid : Bool
  expired : Bool
  hasRefreshToken : Bool
deriving Repr, DecidableEq

/-- `YouTubeAutoUploader.get_credentials`: raises `ValueError` when either
environment variable is missing or empty, before `token.pickle` is even
consulted; otherwise loads the stored credentials (when present), refreshes
expired ones that carry a refresh token (`refreshOk` is whether the refresh
call succeeds), and returns `None` when interactive authentication would be
needed. -/
def get_credentials (cid csec : Option String) (stored : Option StoredCreds)
    (refreshOk : Bool) : Except PyError (Option StoredCreds) :=
  if envMissing cid || envMissing csec then .error .valueError
  else
    match stored with
    | none => .ok none
    | some creds =>
      if creds.valid then .ok (some creds)
      else if creds.expired && creds.hasRefreshToken then
        if refreshOk then .ok (some { creds with valid := true, expired := false })
        else .error .refreshError
      else .ok none

/-- `YouTubeAutoUploader.upload_video`: `get_credentials` is called outside
the `try`/`except`, so its exceptions propagate; a `None` credential result
and any exception inside the `try` block (modelled by `apiOk = false`) are
reported as a `None` return value. -/
def upload_video (cid csec : Option String) (stored : Option StoredCreds)
    (refreshOk apiOk : Bool) : Except PyError (Option String) :=
  match get_credentials cid csec stored refreshOk with
  | .error e => .error e
  | .ok none => .ok none
  | .ok (some _) => if apiOk then .ok (some "videoId") else .ok none

/-- Network calls performed inside `upload_video`: one `creds.refresh` when a
refresh is attempted, one `insert` request when the `try` block is entered,
and one `update` request after a successful insert. -/
def uploadNetCalls (cid csec : Option String) (stored : Option StoredCreds)
    (refreshOk apiOk : Bool) : Nat :=
  if envMissing cid || envMissing csec then 0
  else
    match stored with
    | none => 0
    | some creds =>
      if creds.valid then (if apiOk then 2 else 1)
      else if creds.expired && creds.hasRefreshToken then
        1 + (if refreshOk then (if apiOk then 2 else 1) else 0)
      else 0

/-- Observable outcome of the uploader `__main__` block.  `exitCode = some n`
means `exit(n)` was called; `none` means the script ran to its end.
`uploadArgs` records the `(file_path, title, description, tags)` arguments
passed to `upload_video`, when that call is reached. -/
structure MainResult where
  exitCode : Option Nat
  printedMissingCreds : Bool
  networkCalls : Nat
  uploadArgs : Option (String × String × String × List String)
deriving Repr, DecidableEq

/-- The argument tuple `__main__` passes to `upload_video` (source lines
216-221): `video_info.get` with the fixed defaults, and
`video_info.get("TAGS", "").split(",")` for the tags. -/
def mainUploadArgs (d : Dict) : String × String × String × List String :=
  ( dictGetD d "FILE" "output_video.mp4"
  , dictGetD d "TITLE" "Daily Video"
  , dictGetD d "DESCRIPTION" ""
  , pySplitComma (dictGetD d "TAGS" "") )

/-- The metadata-and-upload tail of `__main__`: read `video_info.txt`; a
missing file or a falsy (empty) parsed dict leads to `exit(1)`; otherwise
`upload_video` is called with `mainUploadArgs`.  A failed upload only prints
a message (no `exit` call). -/
def metadataAndUpload (cid csec : Option String) (stored : Option StoredCreds)
    (refreshOk apiOk : Bool) (sidecar : Option String) (netSoFar : Nat) :
    Except PyError MainResult :=
  match get_video_info sidecar with
  | .error e => .error e
  | .ok none =>
      .ok { exitCode := some 1, printedMissingCreds := false
          , networkCalls := netSoFar, uploadArgs := none }
  | .ok (some d) =>
      if d.isEmpty then
        .ok { exitCode := some 1, printedMissingCreds := false
            , networkCalls := netSoFar, uploadArgs := none }
      else
        match upload_video cid csec stored refreshOk apiOk with
        | .error e => .error e
        | .ok _ =>
            .ok { exitCode := none, printedMissingCreds := false
                , networkCalls := netSoFar + uploadNetCalls cid csec stored refreshOk apiOk
                , uploadArgs := some (mainUploadArgs d) }

/-- The uploader `__main__` block.  When `token.pickle` is absent, the
environment variables are checked first: if either is missing the script
prints the missing-credentials message and exits with status 1 before any
network activity; otherwise the interactive flow runs (`authCode` is what the
human pastes; an empty code short-circuits `exchange_code_for_token`, which
otherwise performs one POST and succeeds iff `exchangeOk`).  A successful
exchange stores fresh valid credentials in `token.pickle`. -/
def uploaderMain (tokenExists : Bool) (cid csec : Option String)
    (stored : Option StoredCreds) (refreshOk : Bool)
    (authCode : String) (exchangeOk apiOk : Bool)
    (sidecar : Option String) : Except PyError MainResult :=
  if !tokenExists then
    if envMissing cid || envMissing csec then
      .ok { exitCode := some 1, printedMissingCreds := true
          , networkCalls := 0, uploadArgs := none }
    else if authCode.isEmpty then
      .ok { exitCode := some 1, printedMissingCreds := false
          , networkCalls := 0, uploadArgs := none }
    else if exchangeOk then
      metadataAndUpload cid csec (some ⟨true, false, true⟩) refreshOk apiOk sidecar 1
    else
      .ok { exitCode := some 1, printedMissingCreds := false
          , networkCalls := 1, uploadArgs := none }
  else
    metadataAndUpload cid csec stored refreshOk apiOk sidecar 0

/-! # Theorems -/

/-- `String.append` acts as list append on the underlying data. -/
lemma str_data_append (a b : String) : (a ++ b).data = a.data ++ b.data := rfl

lemma splitChar_ne_nil (sep : Char) (l : List Char) : splitChar sep l ≠ [] := by
  cases l with
  | nil => simp [splitChar]
  | cons c cs =>
      simp only [splitChar]
      split
      · simp
      · cases h : splitChar sep cs <;> simp

lemma splitChar_cons_self (sep : Char) (l : List Char) :
    splitChar sep (sep :: l) = [] :: splitChar sep l := by
  simp [splitChar]

lemma splitChar_append_sep (sep : Char) (a b : List Char) :
    splitChar sep (a ++ sep :: b) = splitChar sep a ++ splitChar sep b := by
  induction a with
  | nil => simp [splitChar]
  | cons c cs ih =>
      by_cases hc : c = sep
      · subst hc
        simp only [List.cons_append, splitChar_cons_self, ih, List.cons_append]
      · simp only [List.cons_append, splitChar, if_neg hc, List.append_eq]
        rw [ih]
        cases hcs : splitChar sep cs with
        | nil => exact absurd hcs (splitChar_ne_nil _ _)
        | cons l ls => simp [hcs]

lemma splitChar_no_sep (sep : Char) (a : List Char) (h : sep ∉ a) :
    splitChar sep a = [a] := by
  induction a with
  | nil => rfl
  | cons c cs ih =>
      have hc : c ≠ sep := fun e => h (by rw [e]; exact List.mem_cons_self _ _)
      have hcs := ih (fun hm => h (List.mem_cons_of_mem _ hm))
      simp [splitChar, hc, hcs]

lemma splitChar_line_cons (sep : Char) (a b : List Char) (h : sep ∉ a) :
    splitChar sep (a ++ sep :: b) = a :: splitChar sep b := by
  rw [splitChar_append_sep, splitChar_no_sep sep a h]
  rfl

lemma splitChar_append_no_sep_left (sep : Char) (a b l : List Char) (ls : List (List Char))
    (h : sep ∉ a) (hb : splitChar sep b = l :: ls) :
    splitChar sep (a ++ b) = (a ++ l) :: ls := by
  induction a with
  | nil => simpa using hb
  | cons c cs ih =>
      have hc : c ≠ sep := fun e => h (by rw [e]; exact List.mem_cons_self _ _)
      have ih' := ih (fun hm => h (List.mem_cons_of_mem _ hm))
      simp only [List.cons_append, splitChar, if_neg hc, List.append_eq, ih']

lemma dropWhile_ws_eq_self (l : List Char) (hh : (l.headD ' ').isWhitespace = false) :
    l.dropWhile Char.isWhitespace = l := by
  cases l with
  | nil => rfl
  | cons c cs =>
      simp only [List.headD_cons] at hh
      simp [List.dropWhile_cons, hh]

lemma pyStrip_eq_self (l : List Char) (hh : (l.headD ' ').isWhitespace = false)
    (hr : (l.reverse.headD ' ').isWhitespace = false) : pyStrip l = l := by
  unfold pyStrip
  rw [dropWhile_ws_eq_self l hh, dropWhile_ws_eq_self l.reverse hr, List.reverse_reverse]

lemma hasColonSpace_boundary (k v : List Char) :
    hasColonSpace (k ++ ':' :: ' ' :: v) = true := by
  induction k with
  | nil => rfl
  | cons c k' ih =>
      cases k' with
      | nil =>
          simp only [List.nil_append] at ih
          simp [hasColonSpace, ih]
      | cons c2 k'' =>
          simp only [List.cons_append] at ih ⊢
          simp [hasColonSpace, ih]

lemma hasColonSpace_eq_false_of_no_colon (l : List Char) (h : ':' ∉ l) :
    hasColonSpace l = false := by
  induction l with
  | nil => rfl
  | cons c cs ih =>
      have hc : c ≠ ':' := fun e => h (by rw [e]; exact List.mem_cons_self _ _)
      have hcs := ih (fun hm => h (List.mem_cons_of_mem _ hm))
      cases cs with
      | nil => rfl
      | cons c2 rest => simp [hasColonSpace, hc, hcs]

lemma splitFirstColonSpace_boundary (k v : List Char) (hk : ':' ∉ k) :
    splitFirstColonSpace (k ++ ':' :: ' ' :: v) = some (k, v) := by
  induction k with
  | nil => rfl
  | cons c k' ih =>
      have hc : c ≠ ':' := fun e => hk (by rw [e]; exact List.mem_cons_self _ _)
      have ih' := ih (fun hm => hk (List.mem_cons_of_mem _ hm))
      cases k' with
      | nil =>
          simp only [List.nil_append] at ih'
          simp [splitFirstColonSpace, hc, ih']
      | cons c2 k'' =>
          simp only [List.cons_append] at ih' ⊢
          simp [splitFirstColonSpace, hc, ih']

lemma parseLine_skip (d : Dict) (line : List Char) (h : hasColonSpace line = false) :
    parseLine d line = .ok d := by
  simp [parseLine, h]

lemma parseLine_keyline (d : Dict) (kd vd : List Char)
    (hk : ':' ∉ kd)
    (hh : (kd.headD ':').isWhitespace = false)
    (hv : (vd.reverse.headD ' ').isWhitespace = false) :
    parseLine d (kd ++ ':' :: ' ' :: vd) = .ok (dictInsert d ⟨kd⟩ ⟨vd⟩) := by
  have h1 : hasColonSpace (kd ++ ':' :: ' ' :: vd) = true := hasColonSpace_boundary kd vd
  have hhead : ((kd ++ ':' :: ' ' :: vd).headD ' ').isWhitespace = false := by
    cases kd with
    | nil =>
        simp only [List.nil_append, List.headD_cons]
        decide
    | cons c k' => simpa using hh
  have hrev : ((kd ++ ':' :: ' ' :: vd).reverse.headD ' ').isWhitespace = false := by
    cases hvr : vd.reverse with
    | nil => rw [hvr] at hv; simp at hv
    | cons x t =>
        rw [hvr] at hv
        simp only [List.headD_cons] at hv
        rw [List.reverse_append]
        simp [hvr, hv]
  have h2 : pyStrip (kd ++ ':' :: ' ' :: vd) = kd ++ ':' :: ' ' :: vd :=
    pyStrip_eq_self _ hhead hrev
  have h3 : splitFirstColonSpace (kd ++ ':' :: ' ' :: vd) = some (kd, vd) :=
    splitFirstColonSpace_boundary kd vd hk
  simp [parseLine, h1, h2, h3]

lemma parseLinesList_cons_ok (d d2 : Dict) (line : List Char) (rest : List (List Char))
    (h : parseLine d line = .ok d2) :
    parseLinesList d (line :: rest) = parseLinesList d2 rest := by
  simp [parseLinesList, h]

lemma parseLinesList_append_skip (d : Dict) (ls rest : List (List Char))
    (h : ∀ l ∈ ls, hasColonSpace l = false) :
    parseLinesList d (ls ++ rest) = parseLinesList d rest := by
  induction ls with
  | nil => rfl
  | cons l ls ih =>
      rw [List.cons_append,
        parseLinesList_cons_ok d d l (ls ++ rest) (parseLine_skip d l (h l (List.mem_cons_self _ _)))]
      exact ih (fun x hx => h x (List.mem_cons_of_mem _ hx))

lemma dictInsert_four (t dsc g f : String) :
    dictInsert (dictInsert (dictInsert (dictInsert [] "TITLE" t) "DESCRIPTION" dsc)
        "TAGS" g) "FILE" f =
      [("TITLE", t), ("DESCRIPTION", dsc), ("TAGS", g), ("FILE", f)] := by
  simp [dictInsert]

/-- C2: for every outcome of the quote-API call (success or any exception:
network error, parse error, timeout), `get_daily_content` returns normally
(it is a total function of the outcome) with a non-empty `text`, and on any
fetch failure the text is one of the three fixed fallback quotes. -/
theorem get_daily_content_total_nonempty (o : FetchOutcome) (i : Fin 3) :
    (get_daily_content o i).text ≠ "" ∧
      (o = .failure → (get_daily_content o i).text ∈ fallback_quotes) := by
  constructor
  · match o with
    | .ok c a =>
        intro h
        have hd := congrArg String.data h
        simp only [get_daily_content] at hd
        have : (c ++ "\n\n- " ++ a).data = c.data ++ ('\n' :: '\n' :: '-' :: ' ' :: []) ++ a.data := by
          show (c.data ++ _ ++ a.data) = _
          rfl
        rw [this] at hd
        simp at hd
    | .failure =>
        intro h
        have hd := congrArg String.data h
        fin_cases i <;> simp [get_daily_content, fallback_quotes] at hd
  · intro ho
    subst ho
    fin_cases i <;> simp [get_daily_content, fallback_quotes]

/-- Witness for C2 at a concrete failing fetch: the implication is discharged
at `o = .failure`, `i = 0`. -/
theorem get_daily_content_total_nonempty_witness :
    (get_daily_content .failure 0).text ≠ "" ∧
      (FetchOutcome.failure = .failure →
        (get_daily_content .failure 0).text ∈ fallback_quotes) :=
  get_daily_content_total_nonempty .failure 0

lemma fillLoop_length_le (width : Nat) (ws : List String) (cur : String)
    (hcur : cur.length ≤ width) (hws : ∀ w ∈ ws, w.length ≤ width) :
    ∀ l ∈ fillLoop width ws cur, l.length ≤ width := by
  induction ws generalizing cur with
  | nil =>
      intro l hl
      simp only [fillLoop, List.mem_singleton] at hl
      simpa [hl] using hcur
  | cons w ws ih =>
      intro l hl
      simp only [fillLoop] at hl
      split at hl
      case isTrue h =>
        refine ih (cur ++ " " ++ w) ?_ (fun x hx => hws x (List.mem_cons_of_mem _ hx)) l hl
        have : (cur ++ " " ++ w).length = cur.length + 1 + w.length := by
          simp [String.length_append]
          rfl
        omega
      case isFalse h =>
        rcases List.mem_cons.mp hl with rfl | hl
        · exact hcur
        · exact ih w (hws w (List.mem_cons_self _ _))
            (fun x hx => hws x (List.mem_cons_of_mem _ hx)) l hl

/-- C4: for every content, the frame of `create_motivational_short` is exactly
1080 by 1920, its drawn text is `content.text` word-wrapped at column 30, and
(when every word of the text fits the column) no wrapped line exceeds 30
characters. -/
theorem create_motivational_short_frame (c : Content) (x0 y0 x1 y1 : Int)
    (h : ∀ w ∈ pyWords c.text, w.length ≤ 30) :
    (create_motivational_short c x0 y0 x1 y1).width = 1080 ∧
      (create_motivational_short c x0 y0 x1 y1).height = 1920 ∧
      (create_motivational_short c x0 y0 x1 y1).text = textwrap_fill 30 c.text ∧
      ∀ l ∈ textwrap_wrap 30 c.text, l.length ≤ 30 := by
  refine ⟨rfl, rfl, rfl, ?_⟩
  unfold textwrap_wrap
  cases hw : pyWords c.text with
  | nil => intro l hl; simp at hl
  | cons w ws =>
      have hmem : ∀ x ∈ pyWords c.text, x.length ≤ 30 := h
      rw [hw] at hmem
      exact fillLoop_length_le 30 ws w
        (hmem w (List.mem_cons_self _ _))
        (fun x hx => hmem x (List.mem_cons_of_mem _ hx))

/-- Witness for C4 at the concrete content "hello world" and bounding box
`(0, 0, 100, 200)`. -/
theorem create_motivational_short_frame_witness :
    (create_motivational_short ⟨"quote", "hello world", "#x"⟩ 0 0 100 200).width = 1080 ∧
      (create_motivational_short ⟨"quote", "hello world", "#x"⟩ 0 0 100 200).height = 1920 ∧
      (create_motivational_short ⟨"quote", "hello world", "#x"⟩ 0 0 100 200).text =
        textwrap_fill 30 "hello world" ∧
      ∀ l ∈ textwrap_wrap 30 "hello world", l.length ≤ 30 :=
  create_motivational_short_frame ⟨"quote", "hello world", "#x"⟩ 0 0 100 200 (by decide)

/-- C5 (code bug evaluation): at the bounding box `(x0, y0, x1, y1) =
(0, 10, 100, 50)` the code places the text block at `(490, 935)` because it
computes `text_height = bbox[3] - bbox[0] = 50`, while the centred placement
described by the spec (height `= y1 - y0 = 40`) is `(490, 940)`; the two
placements differ. -/
theorem textPosition_height_bug :
    textPosition 0 10 100 50 = (490, 935) ∧
      textPositionCentered 0 10 100 50 = (490, 940) ∧
      textPosition 0 10 100 50 ≠ textPositionCentered 0 10 100 50 := by
  refine ⟨?_, ?_, ?_⟩ <;> decide

/-- C6: for every duration `d`, the encoder command loops the input image
(`-loop 1`) for exactly `d` seconds (`-t d`), and its filter applies a fade-in
of duration 1 at time 0 and a fade-out of duration 1 starting at `d - 1`, so
the fade-out ends exactly at `d` seconds (`(d - 1) + 1 = d`). -/
theorem ffmpegCmd_fade_timing (image_path output_path : String) (d : Int) :
    (ffmpegCmd image_path output_path d).get? 1 = some "-loop" ∧
      (ffmpegCmd image_path output_path d).get? 2 = some "1" ∧
      (ffmpegCmd image_path output_path d).get? 7 = some "-t" ∧
      (ffmpegCmd image_path output_path d).get? 8 = some (toString d) ∧
      (ffmpegCmd image_path output_path d).get? 11 = some "-vf" ∧
      (ffmpegCmd image_path output_path d).get? 12 = some
        ("fade=t=in:st=0:d=1,fade=t=out:st=" ++ toString (d - 1) ++ ":d=1") ∧
      (d - 1) + 1 = d := by
  refine ⟨rfl, rfl, rfl, rfl, rfl, rfl, ?_⟩
  omega

/-- C3 (counterexample): when the primary encoder fails and the unchecked
fallback invocation also fails, `create_video_from_image` returns with no
file present at `output_path` — the claim that a file is always present,
"even when the fallback encoder invocation itself fails", is false. -/
theorem create_video_no_file_counterexample :
    create_video_from_image "daily_content.png" "output_video.mp4" 5 false false = false := by
  rfl

/-- C3 (amended): after `create_video_from_image` returns (which it always
does — the fallback's exit status is not checked, so no exception escapes),
a file is present at `output_path` exactly when the primary encoder succeeded
or the fallback invocation succeeded; when both fail the run proceeds without
a video file. -/
theorem create_video_file_presence (image_path output_path : String) (d : Int)
    (primaryExitOk fallbackExitOk : Bool) :
    create_video_from_image image_path output_path d primaryExitOk fallbackExitOk =
      (primaryExitOk || fallbackExitOk) := by
  cases primaryExitOk <;> simp [create_video_from_image, create_fallback_video]

/-- C7: under the same random choice and the same current date, the generated
title is identical for any two contents (the title does not depend on the
content), and it is always one of the four fixed templates. -/
theorem generate_title_content_independent (c1 c2 : Content) (dateT : String) (i : Fin 4) :
    generate_title c1 dateT i = generate_title c2 dateT i ∧
      generate_title c1 dateT i ∈ titleTemplates dateT := by
  refine ⟨rfl, ?_⟩
  fin_cases i <;> simp [generate_title, titleTemplates]

/-- C8: when no `token.pickle` exists and at least one of the two environment
variables is unset (or empty), the uploader main block exits with status 1
after printing the missing-credentials message, and performs no network
call. -/
theorem uploader_main_missing_creds (cid csec : Option String)
    (stored : Option StoredCreds) (refreshOk : Bool) (authCode : String)
    (exchangeOk apiOk : Bool) (sidecar : Option String)
    (h : (envMissing cid || envMissing csec) = true) :
    uploaderMain false cid csec stored refreshOk authCode exchangeOk apiOk sidecar =
      .ok { exitCode := some 1, printedMissingCreds := true
          , networkCalls := 0, uploadArgs := none } := by
  simp [uploaderMain, h]

/-- Witness for C8: no stored token, `YOUTUBE_CLIENT_ID` unset while the
secret is set. -/
theorem uploader_main_missing_creds_witness :
    (envMissing none || envMissing (some "secret")) = true ∧
      uploaderMain false none (some "secret") none true "code" true true (some "TITLE: x\n") =
        .ok { exitCode := some 1, printedMissingCreds := true
            , networkCalls := 0, uploadArgs := none } :=
  ⟨by decide,
   uploader_main_missing_creds none (some "secret") none true "code" true true
     (some "TITLE: x\n") (by decide)⟩

/-- C9: whenever `YOUTUBE_CLIENT_ID` or `YOUTUBE_CLIENT_SECRET` is unset,
`get_credentials` raises `ValueError` (never returns `None`), even when a
valid stored token exists, and because `upload_video` calls it outside the
`try`/`except`, the exception propagates out of `upload_video` instead of
being caught and reported as a `None` result. -/
theorem upload_video_valueerror_propagates (cid csec : Option String)
    (stored : Option StoredCreds) (refreshOk apiOk : Bool)
    (h : (envMissing cid || envMissing csec) = true) :
    get_credentials cid csec stored refreshOk = .error .valueError ∧
      upload_video cid csec stored refreshOk apiOk = .error .valueError := by
  have hg : get_credentials cid csec stored refreshOk = .error .valueError := by
    simp [get_credentials, h]
  exact ⟨hg, by simp [upload_video, hg]⟩

/-- Witness for C9: client id unset while a valid stored token exists. -/
theorem upload_video_valueerror_propagates_witness :
    (envMissing none || envMissing (some "s")) = true ∧
      get_credentials none (some "s") (some ⟨true, false, true⟩) true = .error .valueError ∧
      upload_video none (some "s") (some ⟨true, false, true⟩) true true = .error .valueError :=
  ⟨by decide,
   upload_video_valueerror_propagates none (some "s") (some ⟨true, false, true⟩) true true
     (by decide)⟩

/-- C10 (counterexample): a sidecar file that parses successfully but yields
no keys at all (here content `"just a note\n"`, an empty dict, with all four
keys missing) does not lead to the default-substituting upload call: the
empty dict is falsy in Python, so main exits with status 1 and `upload_video`
is never invoked with the defaults. -/
theorem sidecar_defaults_counterexample :
    get_video_info (some "just a note\n") = .ok (some []) ∧
      dictGet? [] "FILE" = none ∧ dictGet? [] "TITLE" = none ∧
      dictGet? [] "DESCRIPTION" = none ∧ dictGet? [] "TAGS" = none ∧
      uploaderMain true (some "id") (some "secret") (some ⟨true, false, true⟩) true "" true true
          (some "just a note\n") =
        .ok { exitCode := some 1, printedMissingCreds := false
            , networkCalls := 0, uploadArgs := none } :=
  ⟨rfl, rfl, rfl, rfl, rfl, rfl⟩

/-- C10 (amended): when the sidecar parses to a non-empty dict that is
missing the relevant keys, main substitutes the fixed defaults — `FILE` to
`"output_video.mp4"`, `TITLE` to `"Daily Video"`, `DESCRIPTION` to the empty
string, and a missing `TAGS` key yields the one-element tag list `[""]`
(because Python `"".split(",") == [""]`) — and passes them to `upload_video`;
when the parsed dict is entirely empty, main instead exits with status 1
(the counterexample case). -/
theorem sidecar_defaults_amended (s : String) (d : Dict)
    (hparse : get_video_info (some s) = .ok (some d))
    (hne : d ≠ [])
    (hF : dictGet? d "FILE" = none) (hT : dictGet? d "TITLE" = none)
    (hD : dictGet? d "DESCRIPTION" = none) (hG : dictGet? d "TAGS" = none) :
    mainUploadArgs d = ("output_video.mp4", "Daily Video", "", [""]) ∧
      uploaderMain true (some "id") (some "secret") (some ⟨true, false, true⟩) true "" true true
          (some s) =
        .ok { exitCode := none, printedMissingCreds := false, networkCalls := 2
            , uploadArgs := some ("output_video.mp4", "Daily Video", "", [""]) } := by
  have hsplit : pySplitComma "" = [""] := rfl
  have hargs : mainUploadArgs d = ("output_video.mp4", "Daily Video", "", [""]) := by
    simp [mainUploadArgs, dictGetD, hF, hT, hD, hG, hsplit]
  have hne' : d.isEmpty = false := by
    cases d with
    | nil => exact absurd rfl hne
    | cons p rest => rfl
  have hid : ("id" : String).isEmpty = false := rfl
  have hsec : ("secret" : String).isEmpty = false := rfl
  refine ⟨hargs, ?_⟩
  simp [uploaderMain, metadataAndUpload, hparse, hne', upload_video, get_credentials,
    envMissing, uploadNetCalls, hargs, hid, hsec]

lemma generate_title_no_nl (c : Content) (dateT : String) (i : Fin 4)
    (h : '\n' ∉ dateT.data) : '\n' ∉ (generate_title c dateT i).data := by
  fin_cases i
  · exact (by decide : '\n' ∉ ("This Will Change Your Perspective" : String).data)
  · show '\n' ∉ ("Daily Wisdom " ++ dateT).data
    rw [str_data_append]
    intro hm
    rcases List.mem_append.mp hm with h1 | h1
    · exact absurd h1 (by decide)
    · exact h h1
  · exact (by decide : '\n' ∉ ("The Truth Nobody Tells You" : String).data)
  · exact (by decide : '\n' ∉ ("One Minute That Could Change Everything" : String).data)

lemma generate_title_rev_head (c : Content) (dateT : String) (i : Fin 4)
    (h : (dateT.data.reverse.headD ' ').isWhitespace = false) :
    ((generate_title c dateT i).data.reverse.headD ' ').isWhitespace = false := by
  fin_cases i
  · exact (by decide :
      (("This Will Change Your Perspective" : String).data.reverse.headD ' ').isWhitespace = false)
  · show (("Daily Wisdom " ++ dateT).data.reverse.headD ' ').isWhitespace = false
    rw [str_data_append, List.reverse_append]
    cases hr : dateT.data.reverse with
    | nil => rw [hr] at h; simp at h
    | cons x t =>
        rw [hr] at h
        simp only [List.headD_cons] at h
        simp only [List.cons_append, List.headD_cons]
        exact h
  · exact (by decide :
      (("The Truth Nobody Tells You" : String).data.reverse.headD ' ').isWhitespace = false)
  · exact (by decide :
      (("One Minute That Could Change Everything" : String).data.reverse.headD ' ').isWhitespace = false)

/-- C1 (counterexample): for the `run_daily` metadata built from the first
fallback quote (title choice 0, a fixed date), writing the sidecar and
parsing it back yields a `DESCRIPTION` value equal to only the first line of
the description — not the description that was written — so the round-trip
claim fails on the description component. -/
theorem sidecar_roundtrip_counterexample :
    get_video_info (some (writeSidecar
        (run_daily_metadata (get_daily_content .failure 0) 0 "10/12/2026" "October 12, 2026"))) =
      .ok (some
        [ ("TITLE", "This Will Change Your Perspective")
        , ("DESCRIPTION", "The only way to do great work is to love what you do. - Steve Jobs")
        , ("TAGS", "shorts,viral,daily,motivation")
        , ("FILE", "output_video.mp4") ]) ∧
      ("The only way to do great work is to love what you do. - Steve Jobs" : String) ≠
        (run_daily_metadata (get_daily_content .failure 0) 0 "10/12/2026"
          "October 12, 2026").description :=
  ⟨rfl, by decide⟩

/-- C1 (amended): for every metadata produced by `run_daily` (arbitrary
content text and hashtags, any of the four title choices, any date strings,
under the stated well-formedness side conditions on those inputs: no
newlines or `": "` in the date strings, text and hashtag lines other than
the text's first line contain no `": "`, and the first text line is
non-empty and does not end in whitespace), writing the sidecar and parsing
it back with `get_video_info` returns the same title, the same file path,
and a `TAGS` value that splits on commas to the same ordered tag list; the
description, however, comes back truncated to its first line (which equals
the first line of the content text), because the multi-line description is
written under a single `DESCRIPTION:` key but parsed line by line. -/
theorem sidecar_roundtrip_amended (c : Content) (i : Fin 4) (dateT dateD : String)
    (hT1 : '\n' ∉ dateT.data)
    (hT2 : (dateT.data.reverse.headD ' ').isWhitespace = false)
    (hD1 : '\n' ∉ dateD.data)
    (hD2 : ':' ∉ dateD.data)
    (hfl : (((pyLines c.text.data).headD []).reverse.headD ' ').isWhitespace = false)
    (htail : ∀ l ∈ (pyLines c.text.data).tail, hasColonSpace l = false)
    (hhash : ∀ l ∈ pyLines c.hashtags.data, hasColonSpace l = false) :
    get_video_info (some (writeSidecar (run_daily_metadata c i dateT dateD))) =
      .ok (some
        [ ("TITLE", (run_daily_metadata c i dateT dateD).title)
        , ("DESCRIPTION", firstLine (run_daily_metadata c i dateT dateD).description)
        , ("TAGS", "shorts,viral,daily,motivation")
        , ("FILE", "output_video.mp4") ]) ∧
      pySplitComma "shorts,viral,daily,motivation" = (run_daily_metadata c i dateT dateD).tags ∧
      firstLine (run_daily_metadata c i dateT dateD).description = firstLine c.text := by
  have ht1 : '\n' ∉ (generate_title c dateT i).data := generate_title_no_nl c dateT i hT1
  have ht2 : ((generate_title c dateT i).data.reverse.headD ' ').isWhitespace = false :=
    generate_title_rev_head c dateT i hT2
  simp only [pyLines] at hfl htail hhash
  cases hx : splitChar '\n' c.text.data with
  | nil => exact absurd hx (splitChar_ne_nil _ _)
  | cons fl tl =>
  rw [hx] at hfl htail
  simp only [List.headD_cons, List.tail_cons] at hfl htail
  -- the description data, rewritten so that every line boundary is an
  -- explicit cons of a newline character
  have e1 : (generate_description c dateD).data =
      c.text.data ++ '\n' :: ('\n' :: (descLineDate.data ++ (dateD.data ++
        '\n' :: (descLineUTC.data ++ '\n' :: ('\n' ::
          (c.hashtags.data ++ '\n' :: ('\n' :: descSeg3Tail.data))))))) := by
    simp only [generate_description, str_data_append, List.append_assoc]
    rfl
  have hnl1 : '\n' ∉ (descLineDate.data ++ dateD.data) := by
    intro hm
    rcases List.mem_append.mp hm with h1 | h1
    · exact absurd h1 (by decide)
    · exact hD1 h1
  have hdesc : splitChar '\n' (generate_description c dateD).data =
      fl :: (tl ++ ([] :: (descLineDate.data ++ dateD.data) :: descLineUTC.data :: [] ::
        (splitChar '\n' c.hashtags.data ++ ([] :: splitChar '\n' descSeg3Tail.data)))) := by
    rw [e1]
    rw [splitChar_append_sep]
    rw [splitChar_cons_self]
    rw [← List.append_assoc descLineDate.data dateD.data]
    rw [splitChar_line_cons '\n' (descLineDate.data ++ dateD.data) _ hnl1]
    rw [splitChar_line_cons '\n' descLineUTC.data _ (by decide)]
    rw [splitChar_cons_self]
    rw [splitChar_append_sep]
    rw [splitChar_cons_self]
    rw [hx]
    simp only [List.cons_append, List.append_assoc]
  have hfirst : firstLine (generate_description c dateD) = (⟨fl⟩ : String) := by
    simp only [firstLine, pyLines]
    rw [hdesc]
    simp only [List.headD_cons]
  have hnoc3 : ∀ l ∈ splitChar '\n' descSeg3Tail.data, hasColonSpace l = false := by
    decide
  have hDT : ∀ l ∈ tl ++ ([] :: (descLineDate.data ++ dateD.data) :: descLineUTC.data :: [] ::
      (splitChar '\n' c.hashtags.data ++ ([] :: splitChar '\n' descSeg3Tail.data))),
      hasColonSpace l = false := by
    intro l hl
    rcases List.mem_append.mp hl with h | h
    · exact htail l h
    rcases List.mem_cons.mp h with rfl | h
    · rfl
    rcases List.mem_cons.mp h with rfl | h
    · refine hasColonSpace_eq_false_of_no_colon _ ?_
      intro hm
      rcases List.mem_append.mp hm with h2 | h2
      · exact absurd h2 (by decide)
      · exact hD2 h2
    rcases List.mem_cons.mp h with rfl | h
    · decide
    rcases List.mem_cons.mp h with rfl | h
    · rfl
    rcases List.mem_append.mp h with h2 | h2
    · exact hhash l h2
    rcases List.mem_cons.mp h2 with rfl | h2
    · rfl
    · exact hnoc3 l h2
  have hnlT : '\n' ∉ ("TITLE: ".data ++ (generate_title c dateT i).data) := by
    intro hm
    rcases List.mem_append.mp hm with h | h
    · exact absurd h (by decide)
    · exact ht1 h
  have e0 : (writeSidecar (run_daily_metadata c i dateT dateD)).data =
      "TITLE: ".data ++ ((generate_title c dateT i).data ++ '\n' ::
        ("DESCRIPTION: ".data ++ ((generate_description c dateD).data ++ '\n' ::
          ("TAGS: shorts,viral,daily,motivation".data ++ '\n' ::
            ("FILE: output_video.mp4".data ++ '\n' :: []))))) := by
    simp only [writeSidecar, run_daily_metadata, str_data_append, List.append_assoc]
    rfl
  have hrest2 : splitChar '\n' ("TAGS: shorts,viral,daily,motivation".data ++ '\n' ::
      ("FILE: output_video.mp4".data ++ '\n' :: [])) =
      ["TAGS: shorts,viral,daily,motivation".data, "FILE: output_video.mp4".data, []] := by
    decide
  have hlines : splitChar '\n' (writeSidecar (run_daily_metadata c i dateT dateD)).data =
      ("TITLE: ".data ++ (generate_title c dateT i).data) ::
        ("DESCRIPTION: ".data ++ fl) ::
        ((tl ++ ([] :: (descLineDate.data ++ dateD.data) :: descLineUTC.data :: [] ::
          (splitChar '\n' c.hashtags.data ++ ([] :: splitChar '\n' descSeg3Tail.data)))) ++
          ("TAGS: shorts,viral,daily,motivation".data ::
            "FILE: output_video.mp4".data :: [[]])) := by
    rw [e0]
    rw [← List.append_assoc "TITLE: ".data (generate_title c dateT i).data]
    rw [splitChar_line_cons '\n' _ _ hnlT]
    rw [← List.append_assoc "DESCRIPTION: ".data (generate_description c dateD).data]
    rw [splitChar_append_sep]
    rw [splitChar_append_no_sep_left '\n' "DESCRIPTION: ".data _ fl _ (by decide) hdesc]
    rw [hrest2]
    simp only [List.cons_append]
  have p1 : parseLine [] ("TITLE: ".data ++ (generate_title c dateT i).data) =
      .ok (dictInsert [] "TITLE" (generate_title c dateT i)) :=
    parseLine_keyline [] "TITLE".data (generate_title c dateT i).data
      (by decide) (by decide) ht2
  have p2 : parseLine (dictInsert [] "TITLE" (generate_title c dateT i))
      ("DESCRIPTION: ".data ++ fl) =
      .ok (dictInsert (dictInsert [] "TITLE" (generate_title c dateT i))
        "DESCRIPTION" (⟨fl⟩ : String)) :=
    parseLine_keyline _ "DESCRIPTION".data fl (by decide) (by decide) hfl
  have p3 : parseLine (dictInsert (dictInsert [] "TITLE" (generate_title c dateT i))
        "DESCRIPTION" (⟨fl⟩ : String)) "TAGS: shorts,viral,daily,motivation".data =
      .ok (dictInsert (dictInsert (dictInsert [] "TITLE" (generate_title c dateT i))
        "DESCRIPTION" (⟨fl⟩ : String)) "TAGS" "shorts,viral,daily,motivation") :=
    parseLine_keyline _ "TAGS".data "shorts,viral,daily,motivation".data
      (by decide) (by decide) (by decide)
  have p4 : parseLine (dictInsert (dictInsert (dictInsert [] "TITLE"
        (generate_title c dateT i)) "DESCRIPTION" (⟨fl⟩ : String))
        "TAGS" "shorts,viral,daily,motivation") "FILE: output_video.mp4".data =
      .ok (dictInsert (dictInsert (dictInsert (dictInsert [] "TITLE"
        (generate_title c dateT i)) "DESCRIPTION" (⟨fl⟩ : String))
        "TAGS" "shorts,viral,daily,motivation") "FILE" "output_video.mp4") :=
    parseLine_keyline _ "FILE".data "output_video.mp4".data
      (by decide) (by decide) (by decide)
  have hparse : parseLinesList []
      (splitChar '\n' (writeSidecar (run_daily_metadata c i dateT dateD)).data) =
      .ok [ ("TITLE", generate_title c dateT i), ("DESCRIPTION", (⟨fl⟩ : String))
          , ("TAGS", "shorts,viral,daily,motivation"), ("FILE", "output_video.mp4") ] := by
    rw [hlines]
    rw [parseLinesList_cons_ok _ _ _ _ p1]
    rw [parseLinesList_cons_ok _ _ _ _ p2]
    rw [parseLinesList_append_skip _ _ _ hDT]
    rw [parseLinesList_cons_ok _ _ _ _ p3]
    rw [parseLinesList_cons_ok _ _ _ _ p4]
    rw [parseLinesList_cons_ok _ _ _ _ (parseLine_skip _ [] rfl)]
    rw [dictInsert_four]
    rfl
  refine ⟨?_, ?_, ?_⟩
  · show get_video_info (some (writeSidecar (run_daily_metadata c i dateT dateD))) =
      .ok (some
        [ ("TITLE", generate_title c dateT i)
        , ("DESCRIPTION", firstLine (generate_description c dateD))
        , ("TAGS", "shorts,viral,daily,motivation")
        , ("FILE", "output_video.mp4") ])
    rw [hfirst]
    simp only [get_video_info, pyLines]
    rw [hparse]
  · rfl
  · show firstLine (generate_description c dateD) = firstLine c.text
    rw [hfirst]
    simp only [firstLine, pyLines, hx, List.headD_cons]

/-- Witness for C1's amended claim: second fallback quote, title choice 1
(the dated template), concrete dates. -/
theorem sidecar_roundtrip_amended_witness :
    ('\n' ∉ ("10/12/2026" : String).data) ∧
      ((("10/12/2026" : String).data.reverse.headD ' ').isWhitespace = false) ∧
      ('\n' ∉ ("October 12, 2026" : String).data) ∧
      (':' ∉ ("October 12, 2026" : String).data) ∧
      (get_video_info (some (writeSidecar
          (run_daily_metadata (get_daily_content .failure 1) 1 "10/12/2026" "October 12, 2026"))) =
        .ok (some
          [ ("TITLE", (run_daily_metadata (get_daily_content .failure 1) 1 "10/12/2026"
              "October 12, 2026").title)
          , ("DESCRIPTION", firstLine (run_daily_metadata (get_daily_content .failure 1) 1
              "10/12/2026" "October 12, 2026").description)
          , ("TAGS", "shorts,viral,daily,motivation")
          , ("FILE", "output_video.mp4") ]) ∧
        pySplitComma "shorts,viral,daily,motivation" =
          (run_daily_metadata (get_daily_content .failure 1) 1 "10/12/2026"
            "October 12, 2026").tags ∧
        firstLine (run_daily_metadata (get_daily_content .failure 1) 1 "10/12/2026"
          "October 12, 2026").description = firstLine (get_daily_content .failure 1).text) :=
  ⟨by decide, by decide, by decide, by decide,
   sidecar_roundtrip_amended (get_daily_content .failure 1) 1 "10/12/2026" "October 12, 2026"
     (by decide) (by decide) (by decide) (by decide) (by decide) (by decide) (by decide)⟩

/-- Witness for C10's amended claim at the one-key sidecar `"NOTE: hi\n"`. -/
theorem sidecar_defaults_amended_witness :
    get_video_info (some "NOTE: hi\n") = .ok (some [("NOTE", "hi")]) ∧
      mainUploadArgs [("NOTE", "hi")] = ("output_video.mp4", "Daily Video", "", [""]) ∧
      uploaderMain true (some "id") (some "secret") (some ⟨true, false, true⟩) true "" true true
          (some "NOTE: hi\n") =
        .ok { exitCode := none, printedMissingCreds := false, networkCalls := 2
            , uploadArgs := some ("output_video.mp4", "Daily Video", "", [""]) } := by
  have h := sidecar_defaults_amended "NOTE: hi\n" [("NOTE", "hi")] rfl (by decide)
    rfl rfl rfl rfl
  exact ⟨rfl, h.1, h.2⟩

end AutoVideo
